import Mathlib

/-!
Verification of the weather ETL pipeline (dags/weather_etl_dag.py).

The three task callables `fetch_weather`, `transform_weather` and
`save_weather` are embedded as pure Lean functions.  JSON values are
modelled with exact rational numbers; the wall clock (`datetime.now()`)
is an explicit `DateTime` parameter; the filesystem and the count of
HTTP requests issued are carried in an explicit `World` state; Python
exceptions become an `EtlError` sum (`ValueError` on a missing upstream
hand-off is `missingData`, a re-raised `requests.RequestException` is
`fetchError`, and a Python `AttributeError` from calling `.get` on a
non-dict is `attributeError`).
-/

namespace WeatherEtl

/-- JSON values as returned by the weather API and produced by the
pipeline.  Numbers are modelled as exact rationals (the decimal
literals appearing in this pipeline are represented exactly). -/
inductive Json where
  | null : Json
  | bool (b : Bool) : Json
  | num (q : ℚ) : Json
  | str (s : String) : Json
  | arr (elems : List Json) : Json
  | obj (fields : List (String × Json)) : Json

/-- Python truthiness of a JSON value, as tested by `if not raw_data`.
`None`, `False`, `0`, the empty string, the empty list and the empty
dict are falsy; everything else is truthy. -/
def Json.pyTruthy : Json → Bool
  | .null => false
  | .bool b => b
  | .num q => !(decide (q.num = 0))
  | .str s => !(decide (s = ""))
  | .arr elems => !elems.isEmpty
  | .obj fields => !fields.isEmpty

/-- Key lookup in a JSON object field list (Python `dict` access). -/
def lookupField : List (String × Json) → String → Option Json
  | [], _ => none
  | (k, v) :: rest, key => if k = key then some v else lookupField rest key

/-- Key lookup on a JSON value: returns the member of an object,
`none` otherwise. -/
def Json.lookupKey : Json → String → Option Json
  | .obj fields, key => lookupField fields key
  | _, _ => none

/-- A wall-clock instant as produced by Python `datetime.now()`. -/
structure DateTime where
  year : Nat
  month : Nat
  day : Nat
  hour : Nat
  minute : Nat
  second : Nat
  microsecond : Nat
deriving DecidableEq

/-- Left-pad the decimal representation of `n` with zeros to `width`. -/
def padZero (width n : Nat) : String :=
  String.mk (List.replicate (width - (Nat.repr n).length) '0') ++ Nat.repr n

/-- Python `datetime.isoformat()` for a naive datetime: the microsecond
part is printed only when nonzero. -/
def DateTime.isoformat (dt : DateTime) : String :=
  padZero 4 dt.year ++ "-" ++ padZero 2 dt.month ++ "-" ++ padZero 2 dt.day ++ "T" ++
    padZero 2 dt.hour ++ ":" ++ padZero 2 dt.minute ++ ":" ++ padZero 2 dt.second ++
    (if dt.microsecond = 0 then "" else "." ++ padZero 6 dt.microsecond)

/-- Python `datetime.strftime` with format `%Y%m%d_%H%M%S`. -/
def DateTime.strftimeFileTag (dt : DateTime) : String :=
  padZero 4 dt.year ++ padZero 2 dt.month ++ padZero 2 dt.day ++ "_" ++
    padZero 2 dt.hour ++ padZero 2 dt.minute ++ padZero 2 dt.second

/-- Errors raised by the pipeline tasks.  `missingData` is the
`ValueError` raised on an empty/absent upstream hand-off (the spec
calls it `MissingDataError`); `fetchError` is a re-raised
`requests.RequestException` (the spec calls it `FetchError`);
`attributeError` is a Python `AttributeError` from calling `.get`
on a value that is not a dict. -/
inductive EtlError where
  | missingData (msg : String) : EtlError
  | fetchError : EtlError
  | attributeError : EtlError
deriving DecidableEq

/-- The modelled filesystem: the set of existing directories and a map
from file paths to file contents. -/
structure FileSystem where
  dirs : List String
  files : List (String × String)
deriving DecidableEq

/-- The observable world state threaded through the tasks: the
filesystem and the number of HTTP requests issued so far. -/
structure World where
  fs : FileSystem
  apiCalls : Nat
deriving DecidableEq

/-- Outcome of the single HTTP GET performed by the Fetcher.  A
`response` carries the final HTTP status and, when the body parses as
JSON, the parsed body (`none` models an unparseable body). -/
inductive HttpOutcome where
  | response (status : Nat) (body : Option Json) : HttpOutcome
  | connectionError : HttpOutcome
  | timeout : HttpOutcome

/-- Task 1, `fetch_weather`: one `requests.get` with a 10-second
timeout, then `raise_for_status()` (which raises exactly for statuses
400-599), then `response.json()`.  Every `requests.RequestException`
(connection error, timeout, HTTP error status, unparseable JSON body)
is logged and re-raised, modelled as `fetchError`. -/
def fetch_weather (outcome : HttpOutcome) (w : World) : World × Except EtlError Json :=
  let w1 : World := World.mk w.fs (w.apiCalls + 1)
  match outcome with
  | .connectionError => (w1, .error .fetchError)
  | .timeout => (w1, .error .fetchError)
  | .response status body =>
    if 400 ≤ status ∧ status < 600 then (w1, .error .fetchError)
    else
      match body with
      | some data => (w1, .ok data)
      | none => (w1, .error .fetchError)

/-- The constant `location` object built by the Transformer. -/
def londonLocation : Json :=
  .obj [(("name"), .str ("London")),
        (("latitude"), .num (mkRat 515074 10000)),
        (("longitude"), .num (mkRat (-1278) 10000))]

/-- Task 2, `transform_weather`: pulls the raw response from the
upstream hand-off (`none` models an absent XCom value), raises
`ValueError` when it is absent or falsy, then reads
`raw_data.get(curr, empty)` and the three current-weather fields with
`current.get(key)` (missing keys become `None`, i.e. `null`), stamping
the record with `datetime.now().isoformat()`.  Calling `.get` on a
non-dict raises `AttributeError`. -/
def transform_weather (now : DateTime) (raw_data : Option Json) (w : World) :
    World × Except EtlError Json :=
  match raw_data with
  | none => (w, .error (.missingData ("No weather data received from fetch task")))
  | some rd =>
    if rd.pyTruthy then
      match rd with
      | .obj fields =>
        match (lookupField fields ("current")).getD (.obj []) with
        | .obj currentFields =>
          (w, .ok (.obj [
            (("timestamp"), .str now.isoformat),
            (("location"), londonLocation),
            (("weather"), .obj [
              (("temperature_celsius"),
                (lookupField currentFields ("temperature_2m")).getD .null),
              (("humidity_percent"),
                (lookupField currentFields ("relative_humidity_2m")).getD .null),
              (("weather_code"),
                (lookupField currentFields ("weather_code")).getD .null)])]))
        | _ => (w, .error .attributeError)
      | _ => (w, .error .attributeError)
    else (w, .error (.missingData ("No weather data received from fetch task")))

/-- The fixed output directory of the Persister (`Path` in the DAG). -/
def outputDir : String := "/home/airflow/data"

/-- Add a directory to the filesystem if it is not already present. -/
def addDir (dirs : List String) (d : String) : List String :=
  if d ∈ dirs then dirs else dirs ++ [d]

/-- Split a character list on the slash character. -/
def splitOnSlash : List Char → List Char → List (List Char)
  | [], acc => [acc.reverse]
  | c :: cs, acc =>
    if c = '/' then acc.reverse :: splitOnSlash cs []
    else splitOnSlash cs (c :: acc)

/-- The non-empty components of an absolute path. -/
def pathComponents (p : String) : List String :=
  ((splitOnSlash p.toList []).filter (fun c => !c.isEmpty)).map (fun cs => String.mk cs)

/-- All ancestors of an absolute path, outermost first, the path
itself included. -/
def pathPrefixes (p : String) : List String :=
  (List.range (pathComponents p).length).map
    (fun i => "/" ++ String.intercalate ("/") ((pathComponents p).take (i + 1)))

/-- `Path(p).mkdir(parents=True, exist_ok=True)`: create the directory
and every missing ancestor, leaving existing ones untouched. -/
def mkdirParents (dirs : List String) (p : String) : List String :=
  (pathPrefixes p).foldl addDir dirs

/-- `open(p, w)` followed by a full write: create or overwrite the
file at `p` with contents `c`. -/
def setFile (files : List (String × String)) (p c : String) : List (String × String) :=
  (p, c) :: files.filter (fun kv => kv.1 ≠ p)

/-- Look up the contents of a file. -/
def lookupStr : List (String × String) → String → Option String
  | [], _ => none
  | (k, v) :: rest, key => if k = key then some v else lookupStr rest key

/-- A run of `n` spaces. -/
def spacesStr (n : Nat) : String := String.mk (List.replicate n ' ')

/-- Lower-case hexadecimal digit. -/
def hexDigit (n : Nat) : Char := Char.ofNat (if n < 10 then 48 + n else 87 + n)

/-- Four lower-case hexadecimal digits. -/
def hex4 (n : Nat) : String :=
  String.mk [hexDigit (n / 4096 % 16), hexDigit (n / 256 % 16),
             hexDigit (n / 16 % 16), hexDigit (n % 16)]

/-- Escape one character as Python `json.dump` does with its default
`ensure_ascii=True`: the two-character shorthands for quote,
backslash, backspace, form feed, newline, carriage return and tab;
`\uXXXX` (with surrogate pairs above the BMP) for every other control
or non-ASCII character; all other characters unchanged. -/
def escapeJsonChar (c : Char) : String :=
  if c = '"' then "\\\""
  else if c = '\\' then "\\\\"
  else if c = Char.ofNat 8 then "\\b"
  else if c = Char.ofNat 12 then "\\f"
  else if c = '\n' then "\\n"
  else if c = '\r' then "\\r"
  else if c = '\t' then "\\t"
  else if c.toNat < 32 ∨ 127 ≤ c.toNat then
    if c.toNat < 65536 then "\\u" ++ hex4 c.toNat
    else
      "\\u" ++ hex4 (55296 + (c.toNat - 65536) / 1024) ++
        "\\u" ++ hex4 (56320 + (c.toNat - 65536) % 1024)
  else String.mk [c]

/-- JSON string literal with Python `json.dump` escaping. -/
def escapeJsonString (s : String) : String :=
  "\"" ++ String.join (s.toList.map escapeJsonChar) ++ "\""

/-- Decimal digits of the fraction `r / den` (with `r < den`), by long
division, stopping at the last nonzero remainder; `fuel` bounds the
number of digits. -/
def fracDigitsInt : Nat → Nat → Nat → String
  | 0, _, _ => ""
  | fuel + 1, r, den =>
    if r = 0 then ""
    else Nat.repr (r * 10 / den) ++ fracDigitsInt fuel (r * 10 % den) den

/-- Decimal rendering of a JSON number as Python `json.dump` prints
the numbers occurring in this pipeline: integers without a decimal
point, terminating decimals exactly. -/
def numRepr (q : ℚ) : String :=
  if q.den = 1 then Int.repr q.num
  else
    (if q.num < 0 then "-" else "") ++ Nat.repr (q.num.natAbs / q.den) ++ "." ++
      fracDigitsInt 40 (q.num.natAbs % q.den) q.den

mutual

/-- Serialization of a JSON value as Python
`json.dump(v, f, indent=ind)` renders it at indentation level `lvl`:
key-value pairs separated by a comma and a newline, keys followed by a
colon and one space, nested containers indented by `ind` further
spaces, empty containers printed inline. -/
def dumpsVal (ind lvl : Nat) : Json → String
  | .null => "null"
  | .bool true => "true"
  | .bool false => "false"
  | .num q => numRepr q
  | .str s => escapeJsonString s
  | .arr [] => "[]"
  | .arr (e :: es) =>
    "[\n" ++ dumpsItems ind (lvl + ind) (e :: es) ++ "\n" ++ spacesStr lvl ++ "]"
  | .obj [] => "\x7b\x7d"
  | .obj (f :: fs) =>
    "\x7b\n" ++ dumpsProps ind (lvl + ind) (f :: fs) ++ "\n" ++ spacesStr lvl ++ "\x7d"

/-- The comma-and-newline separated lines of a JSON array body. -/
def dumpsItems (ind lvl : Nat) : List Json → String
  | [] => ""
  | [e] => spacesStr lvl ++ dumpsVal ind lvl e
  | e :: e2 :: rest =>
    spacesStr lvl ++ dumpsVal ind lvl e ++ ",\n" ++ dumpsItems ind lvl (e2 :: rest)

/-- The comma-and-newline separated lines of a JSON object body. -/
def dumpsProps (ind lvl : Nat) : List (String × Json) → String
  | [] => ""
  | [(k, v)] => spacesStr lvl ++ escapeJsonString k ++ ": " ++ dumpsVal ind lvl v
  | (k, v) :: f2 :: rest =>
    spacesStr lvl ++ escapeJsonString k ++ ": " ++ dumpsVal ind lvl v ++ ",\n" ++
      dumpsProps ind lvl (f2 :: rest)

end

/-- `json.dumps(j, indent=ind)`. -/
def Json.dumps (j : Json) (ind : Nat) : String := dumpsVal ind 0 j

/-- Task 3, `save_weather`: pulls the transformed record from the
upstream hand-off, raises `ValueError` when it is absent or falsy,
creates the output directory (with parents, idempotently), writes the
record as 2-space-indented JSON to
`outputDir/weather_<YYYYMMDD_HHMMSS>.json` named from `datetime.now()`
at save time, and returns the path of the written file. -/
def save_weather (now : DateTime) (weather_data : Option Json) (w : World) :
    World × Except EtlError String :=
  match weather_data with
  | none => (w, .error (.missingData ("No weather data received from transform task")))
  | some wd =>
    if wd.pyTruthy then
      let dirs1 := mkdirParents w.fs.dirs outputDir
      let filePath := outputDir ++ "/weather_" ++ now.strftimeFileTag ++ ".json"
      (World.mk (FileSystem.mk dirs1 (setFile w.fs.files filePath (wd.dumps 2))) w.apiCalls,
        .ok filePath)
    else (w, .error (.missingData ("No weather data received from transform task")))

/-- The empty world: no directories, no files, no HTTP requests yet. -/
def emptyWorld : World := World.mk (FileSystem.mk [] []) 0

/-- The fixed wall-clock instant 2026-01-13T10:00:00 of the
end-to-end scenario. -/
def dtRun : DateTime := ⟨2026, 1, 13, 10, 0, 0, 0⟩

/-- The raw API response of the end-to-end scenario. -/
def rawRun : Json := .obj [(("current"), .obj [
  (("temperature_2m"), .num (mkRat 153 10)),
  (("relative_humidity_2m"), .num 80),
  (("weather_code"), .num 3)])]

/-- The normalized record the end-to-end scenario expects. -/
def recRun : Json := .obj [
  (("timestamp"), .str ("2026-01-13T10:00:00")),
  (("location"), londonLocation),
  (("weather"), .obj [
    (("temperature_celsius"), .num (mkRat 153 10)),
    (("humidity_percent"), .num 80),
    (("weather_code"), .num 3)])]

/-- The output path the end-to-end scenario expects. -/
def pathRun : String := "/home/airflow/data/weather_20260113_100000.json"

/-- The 2-space-indented file contents the end-to-end scenario
expects. -/
def contentRun : String := "\x7b\n  \"timestamp\": \"2026-01-13T10:00:00\",\n  \"location\": \x7b\n    \"name\": \"London\",\n    \"latitude\": 51.5074,\n    \"longitude\": -0.1278\n  \x7d,\n  \"weather\": \x7b\n    \"temperature_celsius\": 15.3,\n    \"humidity_percent\": 80,\n    \"weather_code\": 3\n  \x7d\n\x7d"

theorem pathPrefixes_outputDir :
    pathPrefixes outputDir = [("/home"), ("/home/airflow"), ("/home/airflow/data")] := rfl

theorem addDir_self_mem (dirs : List String) (d : String) : d ∈ addDir dirs d := by
  by_cases hd : d ∈ dirs <;> simp [addDir, hd]

theorem addDir_eq_of_mem (dirs : List String) (d : String) (hd : d ∈ dirs) :
    addDir dirs d = dirs := by
  simp [addDir, hd]

theorem mkdirParents_outputDir (dirs : List String) :
    mkdirParents dirs outputDir =
      addDir (addDir (addDir dirs ("/home")) ("/home/airflow")) ("/home/airflow/data") := by
  rw [mkdirParents, pathPrefixes_outputDir]
  rfl

theorem lookupStr_setFile (files : List (String × String)) (p c : String) :
    lookupStr (setFile files p c) p = some c := by
  simp [setFile, lookupStr]

/-- C1: for every API response object whose `current` object contains
all three fields `temperature_2m`, `relative_humidity_2m` and
`weather_code`, the Transformer output has a `weather` object carrying
exactly those three values under the keys `temperature_celsius`,
`humidity_percent` and `weather_code`, and a `location` object equal
to name London, latitude 51.5074, longitude -0.1278. -/
theorem C1_transform_renames_current_fields (now : DateTime) (w : World)
    (fields currentFields : List (String × Json)) (t h c : Json)
    (hcur : lookupField fields ("current") = some (.obj currentFields))
    (ht : lookupField currentFields ("temperature_2m") = some t)
    (hh : lookupField currentFields ("relative_humidity_2m") = some h)
    (hc : lookupField currentFields ("weather_code") = some c) :
    transform_weather now (some (.obj fields)) w =
      (w, .ok (.obj [
        (("timestamp"), .str now.isoformat),
        (("location"), .obj [(("name"), .str ("London")),
                             (("latitude"), .num (mkRat 515074 10000)),
                             (("longitude"), .num (mkRat (-1278) 10000))]),
        (("weather"), .obj [(("temperature_celsius"), t),
                            (("humidity_percent"), h),
                            (("weather_code"), c)])])) := by
  cases fields with
  | nil => simp [lookupField] at hcur
  | cons p ps =>
    simp [transform_weather, Json.pyTruthy, hcur, ht, hh, hc, londonLocation]

theorem C1_transform_renames_current_fields_witness :
    transform_weather dtRun (some rawRun) emptyWorld =
      (emptyWorld, .ok (.obj [
        (("timestamp"), .str dtRun.isoformat),
        (("location"), .obj [(("name"), .str ("London")),
                             (("latitude"), .num (mkRat 515074 10000)),
                             (("longitude"), .num (mkRat (-1278) 10000))]),
        (("weather"), .obj [(("temperature_celsius"), .num (mkRat 153 10)),
                            (("humidity_percent"), .num 80),
                            (("weather_code"), .num 3)])])) :=
  C1_transform_renames_current_fields dtRun emptyWorld _ _ _ _ _ rfl rfl rfl rfl

/-- C2 is false as stated: the API response consisting of the single
member `current = null` is non-empty and all three current-weather
fields are missing from it, yet the Transformer does not succeed: in
the source, `raw_data.get` returns `None` (the key is present, so the
default empty dict is not used) and `None.get` raises
`AttributeError`. -/
theorem C2_counterexample :
    (transform_weather dtRun (some (.obj [(("current"), .null)])) emptyWorld).2 =
      .error .attributeError := rfl

/-- C2 amended: for every non-empty API response object in which the
`current` key is absent entirely, or maps to an object missing one or
more of the three current-weather fields, the Transformer succeeds
without raising and each missing field appears as `null` in the
output `weather` object.  (The amendment excludes responses whose
`current` member is present but not an object; on those the
Transformer raises `AttributeError`.) -/
theorem C2_current_object_missing_fields_null (now : DateTime) (w : World)
    (fields cur : List (String × Json))
    (hne : fields ≠ [])
    (hcur : lookupField fields ("current") = none ∧ cur = [] ∨
            lookupField fields ("current") = some (.obj cur)) :
    transform_weather now (some (.obj fields)) w =
      (w, .ok (.obj [
        (("timestamp"), .str now.isoformat),
        (("location"), londonLocation),
        (("weather"), .obj [
          (("temperature_celsius"), (lookupField cur ("temperature_2m")).getD .null),
          (("humidity_percent"), (lookupField cur ("relative_humidity_2m")).getD .null),
          (("weather_code"), (lookupField cur ("weather_code")).getD .null)])])) := by
  cases fields with
  | nil => exact absurd rfl hne
  | cons p ps =>
    rcases hcur with ⟨hnone, hcurnil⟩ | hsome
    · subst hcurnil
      simp [transform_weather, Json.pyTruthy, hnone]
    · simp [transform_weather, Json.pyTruthy, hsome]

theorem C2_current_object_missing_fields_null_witness :
    transform_weather dtRun (some (.obj [(("elevation"), .num 25)])) emptyWorld =
      (emptyWorld, .ok (.obj [
        (("timestamp"), .str dtRun.isoformat),
        (("location"), londonLocation),
        (("weather"), .obj [
          (("temperature_celsius"), Json.null),
          (("humidity_percent"), Json.null),
          (("weather_code"), Json.null)])])) :=
  C2_current_object_missing_fields_null dtRun emptyWorld _ []
    (List.cons_ne_nil _ _) (Or.inl ⟨rfl, rfl⟩)

set_option maxRecDepth 8000 in
/-- C3: in the end-to-end scenario, the raw input with temperature
15.3, humidity 80 and weather code 3, transformed with the wall
clock fixed at 2026-01-13T10:00:00, produces exactly the expected
record, and the Persister writes that record with 2-space indentation
to `/home/airflow/data/weather_20260113_100000.json` (creating the
output directory chain) and returns that path. -/
theorem C3_end_to_end :
    transform_weather dtRun (some rawRun) emptyWorld = (emptyWorld, .ok recRun) ∧
    save_weather dtRun (some recRun) emptyWorld =
      (World.mk (FileSystem.mk [("/home"), ("/home/airflow"), ("/home/airflow/data")]
        [(pathRun, contentRun)]) 0, .ok pathRun) :=
  ⟨rfl, rfl⟩

/-- C4: the Transformer never changes the world (no HTTP request, no
filesystem access); when the upstream hand-off value is absent or
empty (Python-falsy), it fails with the missing-data `ValueError`;
and for every truthy (non-empty) hand-off value it never raises that
error. -/
theorem C4_transform_guard (now : DateTime) (raw : Option Json) (w : World) :
    (transform_weather now raw w).1 = w ∧
    ((raw = none ∨ ∃ rd, raw = some rd ∧ rd.pyTruthy = false) →
      (transform_weather now raw w).2 =
        .error (.missingData ("No weather data received from fetch task"))) ∧
    (∀ rd, raw = some rd → rd.pyTruthy = true →
      ∀ msg, (transform_weather now raw w).2 ≠ .error (.missingData msg)) := by
  refine ⟨?_, ?_, ?_⟩
  · cases raw with
    | none => rfl
    | some rd =>
      cases rd <;> simp only [transform_weather] <;> (repeat' split) <;> rfl
  · rintro (rfl | ⟨rd, rfl, hfal⟩)
    · rfl
    · simp [transform_weather, hfal]
  · rintro rd rfl htru msg
    cases rd <;> simp only [transform_weather, htru, if_true] <;>
      (repeat' split) <;> simp_all [Json.pyTruthy]

theorem C4_transform_guard_witness :
    (transform_weather dtRun none emptyWorld).2 =
      .error (.missingData ("No weather data received from fetch task")) :=
  (C4_transform_guard dtRun none emptyWorld).2.1 (Or.inl rfl)

/-- C5: when the Persister upstream hand-off value is absent or empty
(Python-falsy), it fails with the missing-data `ValueError` and the
world, in particular the filesystem, is returned unchanged; for every
truthy (non-empty) transformed record it succeeds, so it never raises
that error. -/
theorem C5_save_guard (now : DateTime) (wd : Option Json) (w : World) :
    ((wd = none ∨ ∃ j, wd = some j ∧ j.pyTruthy = false) →
      save_weather now wd w =
        (w, .error (.missingData ("No weather data received from transform task")))) ∧
    (∀ j, wd = some j → j.pyTruthy = true →
      (save_weather now wd w).2 =
        .ok (outputDir ++ "/weather_" ++ now.strftimeFileTag ++ ".json")) := by
  constructor
  · rintro (rfl | ⟨j, rfl, hfal⟩)
    · rfl
    · simp [save_weather, hfal]
  · rintro j rfl htru
    simp [save_weather, htru]

theorem C5_save_guard_witness :
    save_weather dtRun (some (.obj [])) emptyWorld =
      (emptyWorld, .error (.missingData ("No weather data received from transform task"))) :=
  (C5_save_guard dtRun (some (.obj [])) emptyWorld).1 (Or.inr ⟨_, rfl, rfl⟩)

/-- C6 is false as stated: a non-2xx HTTP status does not always yield
a `FetchError`.  The source calls `response.raise_for_status()`, which
raises only for statuses 400-599; a final 3xx response (for example a
300 with a JSON body) is parsed and returned successfully. -/
theorem C6_counterexample :
    (fetch_weather (.response 300 (some (.obj []))) emptyWorld).2 = .ok (.obj []) := rfl

/-- C6 amended: every network error or timeout, and every HTTP status
in 400-599 (rather than every non-2xx status), makes the Fetcher fail
with `FetchError` and produce no return value; every 2xx response
whose body parses as JSON returns the parsed body. -/
theorem C6_fetch_failure_modes (status : Nat) (body : Option Json) (w : World) (j : Json) :
    (fetch_weather .connectionError w).2 = .error .fetchError ∧
    (fetch_weather .timeout w).2 = .error .fetchError ∧
    (400 ≤ status → status < 600 →
      (fetch_weather (.response status body) w).2 = .error .fetchError) ∧
    (200 ≤ status → status < 300 → body = some j →
      (fetch_weather (.response status body) w).2 = .ok j) := by
  refine ⟨rfl, rfl, ?_, ?_⟩
  · intro h4 h6
    simp [fetch_weather, h4, h6]
  · intro h2 h3 hbody
    subst hbody
    have hno : ¬(400 ≤ status ∧ status < 600) := by omega
    simp [fetch_weather, hno]

theorem C6_fetch_failure_modes_witness :
    (fetch_weather (.response 500 none) emptyWorld).2 = .error .fetchError :=
  (C6_fetch_failure_modes 500 none emptyWorld .null).2.2.1 (by omega) (by omega)

/-- C7: for every non-empty transformed record, the Persister creates
the output directory chain (exactly the missing ancestors, and
nothing when the chain already exists), writes the record as 2-space
indented JSON under the file name `weather_<YYYYMMDD_HHMMSS>.json`
derived from the save-time wall clock, returns that absolute path,
and issues no HTTP request. -/
theorem C7_save_writes_file (now : DateTime) (fields : List (String × Json)) (w : World)
    (hne : fields ≠ []) :
    (save_weather now (some (.obj fields)) w).2 =
      .ok (outputDir ++ "/weather_" ++ now.strftimeFileTag ++ ".json") ∧
    (save_weather now (some (.obj fields)) w).1.fs.dirs = mkdirParents w.fs.dirs outputDir ∧
    outputDir ∈ (save_weather now (some (.obj fields)) w).1.fs.dirs ∧
    (pathPrefixes outputDir ⊆ w.fs.dirs →
      (save_weather now (some (.obj fields)) w).1.fs.dirs = w.fs.dirs) ∧
    lookupStr (save_weather now (some (.obj fields)) w).1.fs.files
        (outputDir ++ "/weather_" ++ now.strftimeFileTag ++ ".json") =
      some ((Json.obj fields).dumps 2) ∧
    (save_weather now (some (.obj fields)) w).1.apiCalls = w.apiCalls := by
  cases fields with
  | nil => exact absurd rfl hne
  | cons f fs' =>
    refine ⟨rfl, rfl, ?_, ?_, ?_, rfl⟩
    · show outputDir ∈ mkdirParents w.fs.dirs outputDir
      rw [mkdirParents_outputDir]
      exact addDir_self_mem _ _
    · intro hsub
      have h1 : ("/home" : String) ∈ w.fs.dirs := by
        refine hsub ?_
        rw [pathPrefixes_outputDir]
        simp
      have h2 : ("/home/airflow" : String) ∈ w.fs.dirs := by
        refine hsub ?_
        rw [pathPrefixes_outputDir]
        simp
      have h3 : ("/home/airflow/data" : String) ∈ w.fs.dirs := by
        refine hsub ?_
        rw [pathPrefixes_outputDir]
        simp
      show mkdirParents w.fs.dirs outputDir = w.fs.dirs
      rw [mkdirParents_outputDir, addDir_eq_of_mem _ _ h1, addDir_eq_of_mem _ _ h2,
        addDir_eq_of_mem _ _ h3]
    · exact lookupStr_setFile _ _ _

theorem C7_save_writes_file_witness :
    (save_weather dtRun (some (.obj [(("a"), Json.null)])) emptyWorld).2 =
      .ok (outputDir ++ "/weather_" ++ dtRun.strftimeFileTag ++ ".json") :=
  (C7_save_writes_file dtRun [(("a"), Json.null)] emptyWorld (List.cons_ne_nil _ _)).1

/-- C8: whatever the raw input, any record the Transformer produces
carries a `timestamp` member equal to the ISO format of the wall
clock at which the transformation itself runs (the clock passed to
the Transformer, with no dependence on when the fetch ran). -/
theorem C8_timestamp_is_transform_clock (now : DateTime) (raw : Option Json) (w : World)
    (out : Json) (hok : (transform_weather now raw w).2 = .ok out) :
    out.lookupKey ("timestamp") = some (.str now.isoformat) := by
  cases raw with
  | none => simp [transform_weather] at hok
  | some rd =>
    cases rd <;> simp only [transform_weather] at hok <;> (repeat' split at hok) <;>
      simp at hok
    subst hok
    rfl

set_option maxRecDepth 4000 in
theorem C8_timestamp_is_transform_clock_witness :
    recRun.lookupKey ("timestamp") = some (.str dtRun.isoformat) :=
  C8_timestamp_is_transform_clock dtRun (some rawRun) emptyWorld recRun rfl

/-- C9: the Transformer is a deterministic function of its raw input
and the clock: two runs on the same raw input at the same fixed clock
produce equal records, hence byte-identical serialized outputs, even
when started from different world states. -/
theorem C9_transform_deterministic (now : DateTime) (raw : Option Json) (w1 w2 : World)
    (r1 r2 : Json)
    (h1 : (transform_weather now raw w1).2 = .ok r1)
    (h2 : (transform_weather now raw w2).2 = .ok r2) :
    r1 = r2 ∧ r1.dumps 2 = r2.dumps 2 := by
  have hsame : (transform_weather now raw w1).2 = (transform_weather now raw w2).2 := by
    cases raw with
    | none => rfl
    | some rd =>
      cases rd <;> simp only [transform_weather] <;> (repeat' split) <;> rfl
  rw [h1, h2] at hsame
  have heq := Except.ok.inj hsame
  exact ⟨heq, by rw [heq]⟩

set_option maxRecDepth 4000 in
theorem C9_transform_deterministic_witness :
    recRun = recRun ∧ recRun.dumps 2 = recRun.dumps 2 :=
  C9_transform_deterministic dtRun (some rawRun) emptyWorld emptyWorld recRun recRun rfl rfl

/-- C10: when the Persister fails because its upstream hand-off value
is absent or empty, the filesystem is left entirely unchanged: no file
is written and the output directory is not created either, because the
presence check precedes the directory-creation step. -/
theorem C10_save_untouched_on_missing (now : DateTime) (wd : Option Json) (w : World)
    (h : wd = none ∨ ∃ j, wd = some j ∧ j.pyTruthy = false) :
    (save_weather now wd w).1 = w ∧
    (save_weather now wd w).1.fs.dirs = w.fs.dirs ∧
    (save_weather now wd w).1.fs.files = w.fs.files ∧
    (save_weather now wd w).2 =
      .error (.missingData ("No weather data received from transform task")) := by
  rcases h with rfl | ⟨j, rfl, hfal⟩
  · exact ⟨rfl, rfl, rfl, rfl⟩
  · refine ⟨?_, ?_, ?_, ?_⟩ <;> simp [save_weather, hfal]

theorem C10_save_untouched_on_missing_witness :
    (save_weather dtRun none emptyWorld).1 = emptyWorld :=
  (C10_save_untouched_on_missing dtRun none emptyWorld (Or.inl rfl)).1

end WeatherEtl
